import Mathlib

/-!
Shallow embedding of the mavros setpoint mixins
(`include/mavros/setpoint_mixin.hpp`) and the MagCalStatus plugin
(`src/plugins/mag_calibration_status.cpp`).

Modelling conventions:
* Real-valued wire scalars (C++ `float` / `double`) are modelled exactly by `ℚ`;
  the narrowing `double → float` conversion is not modelled (values are exact).
* Unsigned machine integers are `Nat`; the `uint8_t` stores in the calibration
  plugin take an explicit `% 256`, where overflow is the observable behaviour.
  `int32_t` latitude/longitude are `Int`.
* `Eigen::Vector3d` is `Fin 3 → ℚ` (`.x() = · 0`, `.y() = · 1`, `.z() = · 2`);
  `Eigen::Quaterniond` is a four-component record.
* A mixin method both builds the outbound message and calls
  `uas_->send_message(sp)`; each is modelled as a function returning the pair
  (final local message value, list of messages handed to the transport).
* A plugin handler is modelled as a function from (plugin state, decoded
  message) to (new plugin state, list of values published on its channel).
-/

/-- `Eigen::Vector3d`, with exact scalars. -/
abbrev Vec3 := Fin 3 → ℚ

/-- `Eigen::Quaterniond`, with exact scalars. -/
structure Quaterniond where
  w : ℚ
  x : ℚ
  y : ℚ
  z : ℚ
  deriving DecidableEq

/-- `mavlink::common::msg::SET_POSITION_TARGET_LOCAL_NED`. -/
structure SET_POSITION_TARGET_LOCAL_NED where
  time_boot_ms : Nat
  target_system : Nat
  target_component : Nat
  coordinate_frame : Nat
  type_mask : Nat
  x : ℚ
  y : ℚ
  z : ℚ
  vx : ℚ
  vy : ℚ
  vz : ℚ
  afx : ℚ
  afy : ℚ
  afz : ℚ
  yaw : ℚ
  yaw_rate : ℚ

/-- `mavlink::common::msg::SET_POSITION_TARGET_GLOBAL_INT`. -/
structure SET_POSITION_TARGET_GLOBAL_INT where
  time_boot_ms : Nat
  target_system : Nat
  target_component : Nat
  coordinate_frame : Nat
  type_mask : Nat
  lat_int : Int
  lon_int : Int
  alt : ℚ
  vx : ℚ
  vy : ℚ
  vz : ℚ
  afx : ℚ
  afy : ℚ
  afz : ℚ
  yaw : ℚ
  yaw_rate : ℚ

/-- `mavlink::common::msg::SET_ATTITUDE_TARGET`. -/
structure SET_ATTITUDE_TARGET where
  time_boot_ms : Nat
  target_system : Nat
  target_component : Nat
  type_mask : Nat
  q : Fin 4 → ℚ
  body_roll_rate : ℚ
  body_pitch_rate : ℚ
  body_yaw_rate : ℚ
  thrust : ℚ

/-- The value-initialized message `sp = {}` of the local NED setter
(all fields zero). -/
def zeroLocalNed : SET_POSITION_TARGET_LOCAL_NED :=
  ⟨0, 0, 0, 0, 0, 0, 0, 0, 0, 0, 0, 0, 0, 0, 0, 0⟩

/-- The value-initialized message `sp = {}` of the global-int setter
(all fields zero). -/
def zeroGlobalInt : SET_POSITION_TARGET_GLOBAL_INT :=
  ⟨0, 0, 0, 0, 0, 0, 0, 0, 0, 0, 0, 0, 0, 0, 0, 0⟩

/-- The value-initialized message `sp = {}` of the attitude setter
(all fields zero). -/
def zeroAttitude : SET_ATTITUDE_TARGET :=
  ⟨0, 0, 0, 0, fun _ => 0, 0, 0, 0, 0⟩

/-- Modelled from the spec: `uas_->msg_set_target(sp)` is a UAS helper outside
`src/`; per the spec, addressing the remote endpoint is an external
collaborator's concern. It fills the message's two target-addressing fields
from UAS state, here passed in as parameters. (Local NED instance.) -/
def msg_set_target_local (tgt_system tgt_component : Nat)
    (sp : SET_POSITION_TARGET_LOCAL_NED) : SET_POSITION_TARGET_LOCAL_NED :=
  { sp with target_system := tgt_system, target_component := tgt_component }

/-- Modelled from the spec: `uas_->msg_set_target(sp)` for the global-int
message; see `msg_set_target_local`. -/
def msg_set_target_global (tgt_system tgt_component : Nat)
    (sp : SET_POSITION_TARGET_GLOBAL_INT) : SET_POSITION_TARGET_GLOBAL_INT :=
  { sp with target_system := tgt_system, target_component := tgt_component }

/-- Modelled from the spec: `uas_->msg_set_target(sp)` for the attitude
message; see `msg_set_target_local`. -/
def msg_set_target_attitude (tgt_system tgt_component : Nat)
    (sp : SET_ATTITUDE_TARGET) : SET_ATTITUDE_TARGET :=
  { sp with target_system := tgt_system, target_component := tgt_component }

/-- Modelled from the spec: `mavros::ftf::quaternion_to_mavlink` lives outside
`src/`; the spec fixes it as the external quaternion→wire conversion into "the
protocol's 4-scalar ordering" that must preserve rotation identity. The MAVLink
wire ordering is `[w, x, y, z]`. -/
def quaternion_to_mavlink (q : Quaterniond) : Fin 4 → ℚ :=
  ![q.w, q.x, q.y, q.z]

/-- Decoding of the wire 4-scalar orientation back into a quaternion
(inverse reading of the `[w, x, y, z]` ordering). -/
def decode_wire_quaternion (a : Fin 4 → ℚ) : Quaterniond :=
  ⟨a 0, a 1, a 2, a 3⟩

/-- Two quaternions are equal up to global sign (same rotation). -/
def sameRotationUpToSign (p q : Quaterniond) : Prop :=
  p = q ∨ p = ⟨-q.w, -q.x, -q.y, -q.z⟩

/-- `SetPositionTargetLocalNEDMixin::set_position_target_local_ned`
(setpoint_mixin.hpp lines 44–85), statement by statement. Returns the final
value of the local `sp` and the list of messages handed to
`uas_->send_message`. -/
def set_position_target_local_ned
    (tgt_system tgt_component : Nat)
    (time_boot_ms coordinate_frame type_mask : Nat)
    (p v af : Vec3)
    (yaw yaw_rate : ℚ) :
    SET_POSITION_TARGET_LOCAL_NED × List SET_POSITION_TARGET_LOCAL_NED :=
  let sp := zeroLocalNed
  let sp := msg_set_target_local tgt_system tgt_component sp
  let sp := { sp with time_boot_ms := time_boot_ms }
  let sp := { sp with coordinate_frame := coordinate_frame }
  let sp := { sp with type_mask := type_mask }
  let sp := { sp with yaw := yaw }
  let sp := { sp with yaw_rate := yaw_rate }
  let sp := { sp with x := p 0 }
  let sp := { sp with y := p 1 }
  let sp := { sp with z := p 2 }
  let sp := { sp with vx := v 0 }
  let sp := { sp with vy := v 1 }
  let sp := { sp with vz := v 2 }
  let sp := { sp with afx := af 0 }
  let sp := { sp with afy := af 1 }
  let sp := { sp with afz := af 2 }
  (sp, [sp])

/-- `SetPositionTargetGlobalIntMixin::set_position_target_global_int`
(setpoint_mixin.hpp lines 96–138), statement by statement. -/
def set_position_target_global_int
    (tgt_system tgt_component : Nat)
    (time_boot_ms coordinate_frame type_mask : Nat)
    (lat_int lon_int : Int) (alt : ℚ)
    (v af : Vec3)
    (yaw yaw_rate : ℚ) :
    SET_POSITION_TARGET_GLOBAL_INT × List SET_POSITION_TARGET_GLOBAL_INT :=
  let sp := zeroGlobalInt
  let sp := msg_set_target_global tgt_system tgt_component sp
  let sp := { sp with time_boot_ms := time_boot_ms }
  let sp := { sp with coordinate_frame := coordinate_frame }
  let sp := { sp with type_mask := type_mask }
  let sp := { sp with lat_int := lat_int }
  let sp := { sp with lon_int := lon_int }
  let sp := { sp with alt := alt }
  let sp := { sp with yaw := yaw }
  let sp := { sp with yaw_rate := yaw_rate }
  let sp := { sp with vx := v 0 }
  let sp := { sp with vy := v 1 }
  let sp := { sp with vz := v 2 }
  let sp := { sp with afx := af 0 }
  let sp := { sp with afy := af 1 }
  let sp := { sp with afz := af 2 }
  (sp, [sp])

/-- `SetAttitudeTargetMixin::set_attitude_target`
(setpoint_mixin.hpp lines 149–182), statement by statement. -/
def set_attitude_target
    (tgt_system tgt_component : Nat)
    (time_boot_ms type_mask : Nat)
    (orientation : Quaterniond)
    (body_rate : Vec3)
    (thrust : ℚ) :
    SET_ATTITUDE_TARGET × List SET_ATTITUDE_TARGET :=
  let sp := zeroAttitude
  let sp := msg_set_target_attitude tgt_system tgt_component sp
  let sp := { sp with q := quaternion_to_mavlink orientation }
  let sp := { sp with time_boot_ms := time_boot_ms }
  let sp := { sp with type_mask := type_mask }
  let sp := { sp with thrust := thrust }
  let sp := { sp with body_roll_rate := body_rate 0 }
  let sp := { sp with body_pitch_rate := body_rate 1 }
  let sp := { sp with body_yaw_rate := body_rate 2 }
  (sp, [sp])

/-- The fields of `mavlink::ardupilotmega::msg::MAG_CAL_PROGRESS` read by
`handle_status` (all `uint8_t` on the wire). -/
structure MAG_CAL_PROGRESS where
  compass_id : Nat
  cal_mask : Nat
  completion_pct : Nat

/-- The field of `mavlink::ardupilotmega::msg::MAG_CAL_REPORT` read by
`handle_report` (`uint8_t` on the wire). -/
structure MAG_CAL_REPORT where
  cal_status : Nat

/-- `uint8_t _rgCompassCalProgress[3]`: the plugin's per-sensor progress
state. -/
abbrev ProgressState := Fin 3 → Nat

/-- The `for (i=0; i<3; i++) if (mp.cal_mask & (1 << i)) compassCalCount++;`
loop of `handle_status`: the number of set bits among the low three bits of
`cal_mask`. -/
def compassCalCount (cal_mask : Nat) : Nat :=
  (List.range 3).foldl (fun c i => if cal_mask &&& (1 <<< i) ≠ 0 then c + 1 else c) 0

/-- `MagCalStatusPlugin::handle_status` (mag_calibration_status.cpp lines
67–88). Takes the current `_rgCompassCalProgress` state; returns the new state
and the values published on the `status` channel (`mcs->data` is `uint8_t`,
hence the `% 256`). The conditional guard and the unconditional final publish
mirror the source. -/
def handle_status (st : ProgressState) (mp : MAG_CAL_PROGRESS) :
    ProgressState × List Nat :=
  let st' :=
    if h : mp.compass_id < 3 ∧ compassCalCount mp.cal_mask ≠ 0 then
      Function.update st ⟨mp.compass_id, h.1⟩
        ((mp.completion_pct / compassCalCount mp.cal_mask) % 256)
    else st
  (st', [(st' 0 + st' 1 + st' 2) % 256])

/-- `MagCalStatusPlugin::handle_report` (mag_calibration_status.cpp lines
89–94). The body never touches `_rgCompassCalProgress`; it publishes
`mr.cal_status` into the `uint8_t` field `mcr->data` on the `report`
channel. -/
def handle_report (st : ProgressState) (mr : MAG_CAL_REPORT) :
    ProgressState × List Nat :=
  (st, [mr.cal_status % 256])

/-- `popcount` over an 8-bit mask, as the spec's `popcount(cal_mask)` reads on
the `uint8_t` field: the number of set bits among all eight bits. -/
def popcount8 (n : Nat) : Nat :=
  (List.range 8).foldl (fun c i => if n &&& (1 <<< i) ≠ 0 then c + 1 else c) 0

/-- C1: `set_position_target_local_ned` maps `p`, `v`, `af` positionally into
x/y/z, vx/vy/vz, afx/afy/afz and copies the five scalar arguments verbatim into
time_boot_ms, coordinate_frame, type_mask, yaw, yaw_rate; reading those fields
back from the encoded message reproduces the inputs exactly. -/
theorem local_target_roundtrip (ts tc tb cf tm : Nat) (p v af : Vec3)
    (yaw yr : ℚ) :
    ((set_position_target_local_ned ts tc tb cf tm p v af yaw yr).1.x = p 0)
    ∧ ((set_position_target_local_ned ts tc tb cf tm p v af yaw yr).1.y = p 1)
    ∧ ((set_position_target_local_ned ts tc tb cf tm p v af yaw yr).1.z = p 2)
    ∧ ((set_position_target_local_ned ts tc tb cf tm p v af yaw yr).1.vx = v 0)
    ∧ ((set_position_target_local_ned ts tc tb cf tm p v af yaw yr).1.vy = v 1)
    ∧ ((set_position_target_local_ned ts tc tb cf tm p v af yaw yr).1.vz = v 2)
    ∧ ((set_position_target_local_ned ts tc tb cf tm p v af yaw yr).1.afx = af 0)
    ∧ ((set_position_target_local_ned ts tc tb cf tm p v af yaw yr).1.afy = af 1)
    ∧ ((set_position_target_local_ned ts tc tb cf tm p v af yaw yr).1.afz = af 2)
    ∧ ((set_position_target_local_ned ts tc tb cf tm p v af yaw yr).1.time_boot_ms = tb)
    ∧ ((set_position_target_local_ned ts tc tb cf tm p v af yaw yr).1.coordinate_frame = cf)
    ∧ ((set_position_target_local_ned ts tc tb cf tm p v af yaw yr).1.type_mask = tm)
    ∧ ((set_position_target_local_ned ts tc tb cf tm p v af yaw yr).1.yaw = yaw)
    ∧ ((set_position_target_local_ned ts tc tb cf tm p v af yaw yr).1.yaw_rate = yr) :=
  ⟨rfl, rfl, rfl, rfl, rfl, rfl, rfl, rfl, rfl, rfl, rfl, rfl, rfl, rfl⟩

/-- C4 (counterexample): the claim says the send is never inside the encoder,
but each of the three mixin methods hands the message to
`uas_->send_message` itself: at concrete inputs, every send trace is
nonempty. -/
theorem send_inside_encoder :
    (set_position_target_local_ned 1 1 2 3 4 (fun _ => 0) (fun _ => 0)
      (fun _ => 0) 0 0).2 ≠ []
    ∧ (set_position_target_global_int 1 1 2 3 4 5 6 0 (fun _ => 0)
      (fun _ => 0) 0 0).2 ≠ []
    ∧ (set_attitude_target 1 1 2 3 ⟨1, 0, 0, 0⟩ (fun _ => 0) 0).2 ≠ [] :=
  ⟨List.cons_ne_nil _ _, List.cons_ne_nil _ _, List.cons_ne_nil _ _⟩

/-- C4 (amended): each of the three mixin methods performs the send itself as
its final step, handing exactly the encoded message to the transport, once. -/
theorem encoder_send_trace (ts tc tb cf tm : Nat) (p v af : Vec3)
    (yaw yr : ℚ) (lat lon : Int) (alt : ℚ) (tb2 tm2 : Nat)
    (orientation : Quaterniond) (body_rate : Vec3) (thrust : ℚ) :
    ((set_position_target_local_ned ts tc tb cf tm p v af yaw yr).2
      = [(set_position_target_local_ned ts tc tb cf tm p v af yaw yr).1])
    ∧ ((set_position_target_global_int ts tc tb cf tm lat lon alt v af yaw yr).2
      = [(set_position_target_global_int ts tc tb cf tm lat lon alt v af yaw yr).1])
    ∧ ((set_attitude_target ts tc tb2 tm2 orientation body_rate thrust).2
      = [(set_attitude_target ts tc tb2 tm2 orientation body_rate thrust).1]) :=
  ⟨rfl, rfl, rfl⟩

/-- C5: decoding the 4-scalar wire orientation written by
`set_attitude_target` yields the original quaternion exactly, hence the same
rotation up to global sign. -/
theorem attitude_quaternion_roundtrip (ts tc tb tm : Nat)
    (orientation : Quaterniond) (body_rate : Vec3) (thrust : ℚ) :
    (decode_wire_quaternion
        ((set_attitude_target ts tc tb tm orientation body_rate thrust).1.q)
      = orientation)
    ∧ sameRotationUpToSign
        (decode_wire_quaternion
          ((set_attitude_target ts tc tb tm orientation body_rate thrust).1.q))
        orientation :=
  ⟨rfl, Or.inl rfl⟩

/-- C6: `set_attitude_target` maps `body_rate` positionally — axis 0 into
body_roll_rate, axis 1 into body_pitch_rate, axis 2 into body_yaw_rate, with
no transform — and copies time_boot_ms, type_mask and thrust verbatim. -/
theorem attitude_body_rate_mapping (ts tc tb tm : Nat)
    (orientation : Quaterniond) (body_rate : Vec3) (thrust : ℚ) :
    ((set_attitude_target ts tc tb tm orientation body_rate thrust).1.body_roll_rate
      = body_rate 0)
    ∧ ((set_attitude_target ts tc tb tm orientation body_rate thrust).1.body_pitch_rate
      = body_rate 1)
    ∧ ((set_attitude_target ts tc tb tm orientation body_rate thrust).1.body_yaw_rate
      = body_rate 2)
    ∧ ((set_attitude_target ts tc tb tm orientation body_rate thrust).1.time_boot_ms = tb)
    ∧ ((set_attitude_target ts tc tb tm orientation body_rate thrust).1.type_mask = tm)
    ∧ ((set_attitude_target ts tc tb tm orientation body_rate thrust).1.thrust = thrust) :=
  ⟨rfl, rfl, rfl, rfl, rfl, rfl⟩

/-- C7: `set_position_target_global_int` copies lat_int and lon_int unchanged,
copies alt, yaw and yaw_rate verbatim, and flattens `v` and `af` positionally
into vx/vy/vz and afx/afy/afz — the very values the local-position encoder
writes into its own vx/…/afz fields for the same vectors. -/
theorem global_target_fields (ts tc tb cf tm : Nat) (lat lon : Int)
    (alt : ℚ) (p v af : Vec3) (yaw yr : ℚ) :
    ((set_position_target_global_int ts tc tb cf tm lat lon alt v af yaw yr).1.lat_int = lat)
    ∧ ((set_position_target_global_int ts tc tb cf tm lat lon alt v af yaw yr).1.lon_int = lon)
    ∧ ((set_position_target_global_int ts tc tb cf tm lat lon alt v af yaw yr).1.alt = alt)
    ∧ ((set_position_target_global_int ts tc tb cf tm lat lon alt v af yaw yr).1.yaw = yaw)
    ∧ ((set_position_target_global_int ts tc tb cf tm lat lon alt v af yaw yr).1.yaw_rate = yr)
    ∧ ((set_position_target_global_int ts tc tb cf tm lat lon alt v af yaw yr).1.vx
        = (set_position_target_local_ned ts tc tb cf tm p v af yaw yr).1.vx)
    ∧ ((set_position_target_global_int ts tc tb cf tm lat lon alt v af yaw yr).1.vy
        = (set_position_target_local_ned ts tc tb cf tm p v af yaw yr).1.vy)
    ∧ ((set_position_target_global_int ts tc tb cf tm lat lon alt v af yaw yr).1.vz
        = (set_position_target_local_ned ts tc tb cf tm p v af yaw yr).1.vz)
    ∧ ((set_position_target_global_int ts tc tb cf tm lat lon alt v af yaw yr).1.afx
        = (set_position_target_local_ned ts tc tb cf tm p v af yaw yr).1.afx)
    ∧ ((set_position_target_global_int ts tc tb cf tm lat lon alt v af yaw yr).1.afy
        = (set_position_target_local_ned ts tc tb cf tm p v af yaw yr).1.afy)
    ∧ ((set_position_target_global_int ts tc tb cf tm lat lon alt v af yaw yr).1.afz
        = (set_position_target_local_ned ts tc tb cf tm p v af yaw yr).1.afz)
    ∧ ((set_position_target_global_int ts tc tb cf tm lat lon alt v af yaw yr).1.vx = v 0)
    ∧ ((set_position_target_global_int ts tc tb cf tm lat lon alt v af yaw yr).1.vy = v 1)
    ∧ ((set_position_target_global_int ts tc tb cf tm lat lon alt v af yaw yr).1.vz = v 2)
    ∧ ((set_position_target_global_int ts tc tb cf tm lat lon alt v af yaw yr).1.afx = af 0)
    ∧ ((set_position_target_global_int ts tc tb cf tm lat lon alt v af yaw yr).1.afy = af 1)
    ∧ ((set_position_target_global_int ts tc tb cf tm lat lon alt v af yaw yr).1.afz = af 2) :=
  ⟨rfl, rfl, rfl, rfl, rfl, rfl, rfl, rfl, rfl, rfl, rfl, rfl, rfl, rfl, rfl,
   rfl, rfl⟩

/-- C8: each encoder's result equals the value-initialized (all-zero) message
updated at exactly the assigned fields, so any protocol field not explicitly
assigned holds the zero value. -/
theorem encoders_zero_init (ts tc tb cf tm : Nat) (p v af : Vec3)
    (yaw yr : ℚ) (lat lon : Int) (alt : ℚ) (tb2 tm2 : Nat)
    (orientation : Quaterniond) (body_rate : Vec3) (thrust : ℚ) :
    ((set_position_target_local_ned ts tc tb cf tm p v af yaw yr).1
      = { zeroLocalNed with
          target_system := ts, target_component := tc, time_boot_ms := tb,
          coordinate_frame := cf, type_mask := tm, yaw := yaw, yaw_rate := yr,
          x := p 0, y := p 1, z := p 2, vx := v 0, vy := v 1, vz := v 2,
          afx := af 0, afy := af 1, afz := af 2 })
    ∧ ((set_position_target_global_int ts tc tb cf tm lat lon alt v af yaw yr).1
      = { zeroGlobalInt with
          target_system := ts, target_component := tc, time_boot_ms := tb,
          coordinate_frame := cf, type_mask := tm, lat_int := lat,
          lon_int := lon, alt := alt, yaw := yaw, yaw_rate := yr,
          vx := v 0, vy := v 1, vz := v 2,
          afx := af 0, afy := af 1, afz := af 2 })
    ∧ ((set_attitude_target ts tc tb2 tm2 orientation body_rate thrust).1
      = { zeroAttitude with
          target_system := ts, target_component := tc,
          q := quaternion_to_mavlink orientation, time_boot_ms := tb2,
          type_mask := tm2, thrust := thrust,
          body_roll_rate := body_rate 0, body_pitch_rate := body_rate 1,
          body_yaw_rate := body_rate 2 }) :=
  ⟨rfl, rfl, rfl⟩

/-- C2 (amended): for a progress report with `sensor_id < 3` and at least one
low-three bit set in `cal_mask`, `handle_status` sets
`per_sensor_progress[sensor_id]` to `completion_pct` divided (truncating) by
the number of set bits among the low three bits of `cal_mask`, leaves the
other two entries unchanged, and publishes the sum of the three entries
reduced mod 256; the spec scenario holds: `(mask 0b011, id 0, pct 50)` gives
state `[25,0,0]`, aggregate 25, then `(id 1, pct 100)` gives `[25,50,0]`,
aggregate 75. -/
theorem status_progress_update :
    (∀ (st : ProgressState) (mp : MAG_CAL_PROGRESS) (hid : mp.compass_id < 3),
      compassCalCount mp.cal_mask ≠ 0 → mp.completion_pct < 256 →
      ((handle_status st mp).1 ⟨mp.compass_id, hid⟩
          = mp.completion_pct / compassCalCount mp.cal_mask)
      ∧ (∀ j : Fin 3, (j : Nat) ≠ mp.compass_id → (handle_status st mp).1 j = st j)
      ∧ ((handle_status st mp).2
          = [((handle_status st mp).1 0 + (handle_status st mp).1 1
              + (handle_status st mp).1 2) % 256]))
    ∧ ((handle_status (fun _ => 0) ⟨0, 3, 50⟩).1 = ![25, 0, 0]
      ∧ (handle_status (fun _ => 0) ⟨0, 3, 50⟩).2 = [25]
      ∧ (handle_status ![25, 0, 0] ⟨1, 3, 100⟩).1 = ![25, 50, 0]
      ∧ (handle_status ![25, 0, 0] ⟨1, 3, 100⟩).2 = [75]) := by
  constructor
  · intro st mp hid hcc hpct
    have hcond : mp.compass_id < 3 ∧ compassCalCount mp.cal_mask ≠ 0 := ⟨hid, hcc⟩
    simp only [handle_status, dif_pos hcond]
    refine ⟨?_, ?_, ?_⟩
    · rw [Function.update_same]
      exact Nat.mod_eq_of_lt (lt_of_le_of_lt (Nat.div_le_self _ _) hpct)
    · intro j hj
      exact Function.update_noteq (Fin.ne_of_val_ne hj) _ _
    · trivial
  · exact ⟨by decide, by decide, by decide, by decide⟩

/-- C2 witness: the general part of `status_progress_update` applied at the
spec scenario's first report (state all-zero, id 0, mask 0b011, pct 50). -/
theorem status_progress_update_witness :
    ((0 : Nat) < 3 ∧ compassCalCount 3 ≠ 0 ∧ (50 : Nat) < 256)
    ∧ (((handle_status (fun _ => 0) ⟨0, 3, 50⟩).1 ⟨0, by decide⟩
          = 50 / compassCalCount 3)
      ∧ (∀ j : Fin 3, (j : Nat) ≠ 0 →
          (handle_status (fun _ => 0) ⟨0, 3, 50⟩).1 j = 0)
      ∧ ((handle_status (fun _ => 0) ⟨0, 3, 50⟩).2
          = [((handle_status (fun _ => 0) ⟨0, 3, 50⟩).1 0
              + (handle_status (fun _ => 0) ⟨0, 3, 50⟩).1 1
              + (handle_status (fun _ => 0) ⟨0, 3, 50⟩).1 2) % 256])) :=
  ⟨⟨by decide, by decide, by decide⟩,
   status_progress_update.1 (fun _ => 0) ⟨0, 3, 50⟩ (by decide) (by decide)
     (by decide)⟩

/-- C2 (counterexample): with `cal_mask = 9 = 0b1001` (a low-three bit is set,
so the claim's hypothesis holds), `sensor_id = 0` and `completion_pct = 50`,
the code stores `50` (division by the low-three-bit count, 1), while the claim
as stated demands `completion_pct / popcount(cal_mask) = 50 / 2 = 25`. -/
theorem status_popcount_counterexample :
    ((0 : Nat) < 3 ∧ (9 : Nat) &&& (1 <<< 0) ≠ 0)
    ∧ (handle_status (fun _ => 0) ⟨0, 9, 50⟩).1 ⟨0, by decide⟩ = 50
    ∧ 50 / popcount8 9 = 25
    ∧ (50 : Nat) ≠ 25 := by decide

/-- C3 (counterexample): a report with `sensor_id = 5` (out of range) leaves
the state unchanged but still publishes: the publish trace of
`handle_status` is the nonempty `[75]`, refuting "publishes nothing". -/
theorem ignored_report_publishes :
    ((3 : Nat) ≤ 5)
    ∧ (handle_status ![25, 50, 0] ⟨5, 3, 27⟩).1 = ![25, 50, 0]
    ∧ (handle_status ![25, 50, 0] ⟨5, 3, 27⟩).2 = [75]
    ∧ ([75] : List Nat) ≠ [] := by decide

/-- C3 (amended): for a report with `sensor_id ≥ 3` or no low-three bit set in
`cal_mask`, `handle_status` leaves `per_sensor_progress` entirely unchanged
and (re-)publishes the unchanged aggregate sum mod 256 — it does not publish
nothing. -/
theorem ignored_report_noop (st : ProgressState) (mp : MAG_CAL_PROGRESS)
    (h : 3 ≤ mp.compass_id ∨ compassCalCount mp.cal_mask = 0) :
    (handle_status st mp).1 = st
    ∧ (handle_status st mp).2 = [(st 0 + st 1 + st 2) % 256] := by
  have hcond : ¬(mp.compass_id < 3 ∧ compassCalCount mp.cal_mask ≠ 0) := by
    rintro ⟨h1, h2⟩
    rcases h with h3 | h3
    · exact absurd h1 (Nat.not_lt.mpr h3)
    · exact h2 h3
  simp only [handle_status, dif_neg hcond]
  exact ⟨trivial, trivial⟩

/-- C3 witness: `ignored_report_noop` applied at the spec's out-of-range
report (state `[25,50,0]`, `sensor_id = 5`). -/
theorem ignored_report_noop_witness :
    ((3 : Nat) ≤ 5 ∨ compassCalCount 3 = 0)
    ∧ ((handle_status ![25, 50, 0] ⟨5, 3, 27⟩).1 = ![25, 50, 0]
      ∧ (handle_status ![25, 50, 0] ⟨5, 3, 27⟩).2
          = [((![25, 50, 0] : ProgressState) 0 + (![25, 50, 0] : ProgressState) 1
              + (![25, 50, 0] : ProgressState) 2) % 256]) :=
  ⟨Or.inl (by decide),
   ignored_report_noop ![25, 50, 0] ⟨5, 3, 27⟩ (Or.inl (by decide))⟩

/-- C9: for every final report, `handle_report` publishes `cal_status`
verbatim on the report channel and leaves `per_sensor_progress` completely
unchanged. -/
theorem final_report_behavior (st : ProgressState) (mr : MAG_CAL_REPORT)
    (h : mr.cal_status < 256) :
    (handle_report st mr).1 = st ∧ (handle_report st mr).2 = [mr.cal_status] :=
  ⟨rfl, by simp [handle_report, Nat.mod_eq_of_lt h]⟩

/-- C9 witness: `final_report_behavior` applied at the spec scenario — a final
report `{cal_status: 4}` from the prior progress state `[25,50,0]`. -/
theorem final_report_behavior_witness :
    ((4 : Nat) < 256)
    ∧ ((handle_report ![25, 50, 0] ⟨4⟩).1 = ![25, 50, 0]
      ∧ (handle_report ![25, 50, 0] ⟨4⟩).2 = [4]) :=
  ⟨by decide, final_report_behavior ![25, 50, 0] ⟨4⟩ (by decide)⟩

/-- C10: the published aggregate is always the sum of the three `uint8`
entries reduced mod 256; concretely, from the reachable state `[200,200,0]`
the plain sum 400 exceeds 255 and the published value is `400 % 256 = 144`
(wrap-around, not saturation). -/
theorem aggregate_mod256 :
    (∀ (st : ProgressState) (mp : MAG_CAL_PROGRESS),
      (handle_status st mp).2
        = [((handle_status st mp).1 0 + (handle_status st mp).1 1
            + (handle_status st mp).1 2) % 256])
    ∧ ((handle_status (handle_status (fun _ => 0) ⟨0, 1, 200⟩).1 ⟨1, 2, 200⟩).1 0 = 200
      ∧ (handle_status (handle_status (fun _ => 0) ⟨0, 1, 200⟩).1 ⟨1, 2, 200⟩).1 1 = 200
      ∧ (handle_status (handle_status (fun _ => 0) ⟨0, 1, 200⟩).1 ⟨1, 2, 200⟩).1 2 = 0
      ∧ 200 + 200 + 0 = 400 ∧ 255 < 400 ∧ 400 % 256 = 144
      ∧ (handle_status (handle_status (fun _ => 0) ⟨0, 1, 200⟩).1 ⟨1, 2, 200⟩).2 = [144]) :=
  ⟨fun st mp => rfl, by decide⟩
